import Mathlib

/-!
Shallow embedding of the clickhousePandasWrapper repository (file
clickhousePandasWrapper/insert.py) and proofs about its behaviour.

Modelling conventions:

* A pandas dataframe is modelled as an ordered list of named columns; each
  column carries its pandas dtype rendered as a string (what str(dtype)
  yields in Python) and its list of cell values.  Cell values live in an
  arbitrary type V with a linear order (Python min/max), decidable equality
  (pandas unique) and a rendering function toString (Python str).
* The clickhouse_driver client is modelled as an oracle: a function from the
  history of statements already sent and the current statement to a response,
  an Except value carrying either rows (the first field of each returned row,
  which is all the Python code ever reads) or a numeric error code, plus a
  trace of every statement actually sent to the server.  Responses may depend
  on the history, which lets a single oracle describe a server whose state
  changes after a CREATE DATABASE statement.
* Python methods that either return a value or raise become functions into
  Except String; the string is only a marker for which raise fired.
* generateAlterQuery returns the generated SQL string or Python False; this
  is an Option String here.  insertDataInClickhouse feeds that value straight
  into Client.execute, exactly as the Python code does.  Executing a value
  that is not a string makes clickhouse_driver raise before any statement
  reaches the server, which the model renders as an error response (with a
  code that no handler on that path ever inspects) that neither consumes the
  oracle nor extends the trace.
* The recursive method insertDataInClickhouse is embedded with an explicit
  structural recursion budget so that closed runs reduce by rfl and decide.
  The Python recursion only fires when retryCounter is 0 and always passes
  retryCounter + 1, so a budget of 2 is never exhausted; the exhausted branch
  is unreachable from the wrapper insertDataInClickhouse, and the lemma
  insertAux_gas_irrelevant below proves the budget value above 1 does not
  matter once retryCounter is at least 1.
* The field recCount of InsertOutcome instruments the embedding: it counts
  how many recursive self calls the invocation performed.  It is not part of
  the Python code; it only makes recursion-depth statements expressible.
-/

namespace ClickhousePandasWrapper

/-- The single-quote character that the Python f-strings splice around values
in the generated SQL text. -/
def sq : String := (Char.ofNat 39).toString

/-- One dataframe column: its name, its pandas dtype rendered as a string,
and its cell values. -/
structure DfColumn (V : Type) where
  name : String
  dtype : String
  values : List V
deriving DecidableEq

/-- A pandas dataframe: an ordered sequence of named columns. -/
structure DataFrame (V : Type) where
  cols : List (DfColumn V)
deriving DecidableEq

/-- Column selection df[name]: the first column with the given name, none
when the name is absent (Python raises KeyError there). -/
def DataFrame.getCol {V : Type} (df : DataFrame V) (name : String) :
    Option (DfColumn V) :=
  df.cols.find? (fun c => c.name == name)

/-- pandas Series.unique: distinct values in order of first appearance. -/
def dedupList {V : Type} [DecidableEq V] (l : List V) : List V :=
  l.foldl (fun acc v => if v ∈ acc then acc else acc ++ [v]) []

/-- min(df[col]): none when the column is absent or empty (Python raises
KeyError or ValueError there, caught by generateAlterQuery). -/
def dfMin {V : Type} [LinearOrder V] (df : DataFrame V) (col : String) :
    Option V :=
  (df.getCol col).bind (fun c => c.values.min?)

/-- max(df[col]), same failure conditions as dfMin. -/
def dfMax {V : Type} [LinearOrder V] (df : DataFrame V) (col : String) :
    Option V :=
  (df.getCol col).bind (fun c => c.values.max?)

/-- The module-level columnTypeMap default: overrides by exact column name. -/
def columnTypeMap : List (String × String) :=
  [("Date", "DateTime64(3)"), ("date", "DateTime64(3)")]

/-- The constructor arguments that the Insert instance stores. -/
structure InsertCfg where
  host : String
  port : Nat
  db : String
  columnTypeMap : List (String × String)
deriving DecidableEq

/-- The Insert() constructor defaults from the Python signature. -/
def defaultInsertCfg : InsertCfg :=
  { host := "127.0.0.1", port := 9000, db := "default",
    columnTypeMap := columnTypeMap }

/-- The built-in pandas-dtype to clickhouse-type mapping local to
pandasToClickhouseType. -/
def mapping : List (String × String) :=
  [("int32", "Int32"), ("int64", "Int64"), ("float32", "Float32"),
   ("float64", "Float64"), ("object", "String")]

/-- Insert.pandasToClickhouseType: name override first, then dtype mapping,
then the String fallback. -/
def pandasToClickhouseType (cfg : InsertCfg) (columnName pandasType : String) :
    String :=
  match cfg.columnTypeMap.lookup columnName with
  | some t => t
  | none => (mapping.lookup pandasType).getD "String"

/-- A statement sent to the clickhouse client: either Client.execute on a
SQL string or Client.insert_dataframe with the given INSERT prefix. -/
inductive ChStmt
  | exec (sql : String)
  | insertDf (sql : String)
deriving DecidableEq

/-- The modelled clickhouse client: an oracle mapping the history of sent
statements and the current statement to a response (rows, reduced to the
first field of each row, or a numeric error code), plus the trace of the
statements actually sent so far. -/
structure Ch where
  respond : List ChStmt → ChStmt → Except Nat (List String)
  trace : List ChStmt

/-- Send one statement to the server: it is appended to the trace and the
oracle answers from the previous history. -/
def Ch.executeStmt (ch : Ch) (q : ChStmt) : Ch × Except Nat (List String) :=
  ({ respond := ch.respond, trace := ch.trace ++ [q] }, ch.respond ch.trace q)

/-- Client.execute.  The orchestrator passes the result of generateAlterQuery
straight through, so the argument is an Option String: none models executing
the Python value False, on which clickhouse_driver raises before any
statement reaches the server, so the trace and the oracle are untouched.
The error code 0 of that branch is never compared against 81 or 16 because
the only call site that can receive none catches the error generically. -/
def Ch.execute (ch : Ch) (q : Option String) : Ch × Except Nat (List String) :=
  match q with
  | none => (ch, Except.error 0)
  | some s => ch.executeStmt (ChStmt.exec s)

/-- Client.insert_dataframe with the given INSERT INTO prefix; the dataframe
payload itself does not influence which statement is traced. -/
def Ch.insertDataframe (ch : Ch) (s : String) : Ch × Except Nat (List String) :=
  ch.executeStmt (ChStmt.insertDf s)

/-- The SHOW TABLES statement of the table-existence check. -/
def showTablesSql (db : String) : String :=
  "SHOW TABLES FROM " ++ db

/-- The CREATE DATABASE statement of Insert.createDatabase. -/
def createDatabaseSql (db : String) : String :=
  "CREATE DATABASE IF NOT EXISTS " ++ db

/-- The DESCRIBE TABLE statement of Insert.syncTableSchema. -/
def describeSql (db table : String) : String :=
  "DESCRIBE TABLE " ++ db ++ "." ++ table

/-- Insert.createDatabase: execute CREATE DATABASE IF NOT EXISTS, wrapping
any client failure into a raised exception. -/
def createDatabase (cfg : InsertCfg) (ch : Ch) (db : Option String) :
    Ch × Except String Unit :=
  let d := db.getD cfg.db
  match ch.execute (some (createDatabaseSql d)) with
  | (ch2, Except.ok _) => (ch2, Except.ok ())
  | (ch2, Except.error _) =>
    (ch2, Except.error ("failed create database=" ++ d))

/-- One line of the column block of the CREATE TABLE statement, exactly as
the Python loop renders it. -/
def columnEntry {V : Type} (cfg : InsertCfg) (c : DfColumn V) : String :=
  "    `" ++ c.name ++ "` " ++ pandasToClickhouseType cfg c.name c.dtype ++ ","

/-- Insert.generateCreateTableQuery: the column block is accumulated exactly
like the Python columnsStr loop, then spliced into the fixed template. -/
def generateCreateTableQuery {V : Type} (cfg : InsertCfg) (df : DataFrame V)
    (db table partitionBy orderBy : String) : String :=
  let columnsStr := df.cols.foldl
    (fun acc c =>
      if acc = "" then columnEntry cfg c else acc ++ "\n" ++ columnEntry cfg c)
    ""
  "\nCREATE TABLE IF NOT EXISTS " ++ db ++ "." ++ table ++ " (\n" ++
    columnsStr ++
    "\n)\nENGINE MergeTree\nPARTITION BY (" ++ partitionBy ++ ")\nORDER BY " ++
    orderBy ++ "\nSETTINGS index_granularity = 8192\n"

/-- The exact-match AND clause appended for a uniform predicate column. -/
def alterClause {V : Type} [ToString V] (k : String) (v : V) : String :=
  " AND `" ++ k ++ "` = " ++ sq ++ toString v ++ sq

/-- The base DELETE statement over the partition-column range. -/
def baseAlterSql {V : Type} [ToString V] (db table pbt : String) (mn mx : V) :
    String :=
  "ALTER TABLE " ++ db ++ "." ++ table ++ " DELETE WHERE " ++ pbt ++
    " BETWEEN " ++ sq ++ toString mn ++ sq ++ " AND " ++ sq ++ toString mx ++ sq

/-- The loop over cleanDataWhereColumns of Insert.generateAlterQuery: skip a
missing column, fail on a column whose distinct-value count is not one, and
otherwise extend the statement and record the pinned value. -/
def alterLoop {V : Type} [DecidableEq V] [ToString V] (df : DataFrame V) :
    List String → String → List (String × V) →
    Option (String × List (String × V))
  | [], alterTable, cleanColumn => some (alterTable, cleanColumn)
  | k :: rest, alterTable, cleanColumn =>
    match df.getCol k with
    | none => alterLoop df rest alterTable cleanColumn
    | some c =>
      match dedupList c.values with
      | [v] =>
        alterLoop df rest (alterTable ++ alterClause k v)
          (cleanColumn ++ [(k, v)])
      | _ => none

/-- Insert.generateAlterQuery: none models the Python return value False. -/
def generateAlterQuery {V : Type} [LinearOrder V] [DecidableEq V] [ToString V]
    (df : DataFrame V) (table db partitionByTable : String)
    (cleanDataWhereColumns : List String) : Option String :=
  match dfMin df partitionByTable, dfMax df partitionByTable with
  | some mn, some mx =>
    let alterTable := baseAlterSql db table partitionByTable mn mx
    if cleanDataWhereColumns.isEmpty then some alterTable
    else
      match alterLoop df cleanDataWhereColumns alterTable [] with
      | none => none
      | some (sqlOut, cleanColumn) =>
        if cleanColumn.isEmpty then none else some sqlOut
  | _, _ => none

/-- The ADD COLUMN statement issued by Insert.syncTableSchema. -/
def addColumnSql (cfg : InsertCfg) (db table columnName pandasType : String) :
    String :=
  "ALTER TABLE " ++ db ++ "." ++ table ++ " ADD COLUMN `" ++ columnName ++
    "` " ++ pandasToClickhouseType cfg columnName pandasType

/-- The per-column loop of Insert.syncTableSchema: add every dataframe column
absent from the remote column list, raising when an ADD COLUMN fails. -/
def syncLoop {V : Type} (cfg : InsertCfg) (db table : String)
    (columnNames : List String) :
    List (DfColumn V) → Ch → Ch × Except String Unit
  | [], ch => (ch, Except.ok ())
  | c :: rest, ch =>
    if columnNames.contains c.name then
      syncLoop cfg db table columnNames rest ch
    else
      match ch.execute (some (addColumnSql cfg db table c.name c.dtype)) with
      | (ch2, Except.ok _) => syncLoop cfg db table columnNames rest ch2
      | (ch2, Except.error _) =>
        (ch2, Except.error "failed execute add column")

/-- Insert.syncTableSchema: DESCRIBE the table (raising on failure), then add
the missing columns. -/
def syncTableSchema {V : Type} (cfg : InsertCfg) (ch : Ch) (df : DataFrame V)
    (table db : String) : Ch × Except String Unit :=
  match ch.execute (some (describeSql db table)) with
  | (ch1, Except.error _) => (ch1, Except.error "failed get columns names")
  | (ch1, Except.ok columnNames) => syncLoop cfg db table columnNames df.cols ch1

/-- The backticked comma-separated column list of the INSERT statement,
accumulated exactly like the Python columnsString loop. -/
def insertColumnsString {V : Type} (df : DataFrame V) : String :=
  (df.cols.map (fun c => c.name)).foldl
    (fun acc nm => (if acc = "" then acc else acc ++ ",") ++ "`" ++ nm ++ "`")
    ""

/-- The INSERT INTO prefix handed to Client.insert_dataframe. -/
def insertIntoSql {V : Type} (df : DataFrame V) (db table : String) : String :=
  "INSERT INTO " ++ db ++ "." ++ table ++ " (" ++ insertColumnsString df ++
    ") VALUES"

/-- The observable outcome of one insertDataInClickhouse invocation: the
final client (with its trace), the returned value or raised exception, and
the number of recursive self calls performed (instrumentation only). -/
structure InsertOutcome where
  ch : Ch
  result : Except String Bool
  recCount : Nat

/-- The body of Insert.insertDataInClickhouse.  The first argument is the
structural recursion budget described in the module docstring; the remaining
arguments follow the Python signature (db and orderBy arrive as Option,
resolved against the stored default and the partition column). -/
def insertAux {V : Type} [LinearOrder V] [DecidableEq V] [ToString V] :
    Nat → InsertCfg → Ch → DataFrame V → String → Option String → Bool →
    List String → String → String → Option String → Nat → InsertOutcome
  | 0, _, ch, _, _, _, _, _, _, _, _, _ =>
    ⟨ch, Except.error "recursion budget exhausted", 0⟩
  | gas + 1, cfg, ch, df, table, dbArg, cleanDataInDateRange,
      cleanDataWhereColumns, partitionByTable, partitionByFunction, orderByArg,
      retryCounter =>
    let db := dbArg.getD cfg.db
    let orderBy := orderByArg.getD partitionByTable
    match ch.execute (some (showTablesSql db)) with
    | (ch1, Except.error code) =>
      if code = 81 then
        match createDatabase cfg ch1 (some db) with
        | (ch2, Except.error m) => ⟨ch2, Except.error m, 0⟩
        | (ch2, Except.ok _) =>
          if 1 ≤ retryCounter then
            ⟨ch2, Except.error "failed execute in clickhouse", 0⟩
          else
            let inner := insertAux gas cfg ch2 df table (some db)
              cleanDataInDateRange cleanDataWhereColumns partitionByTable
              partitionByFunction (some orderBy) (retryCounter + 1)
            ⟨inner.ch, inner.result, inner.recCount + 1⟩
      else ⟨ch1, Except.ok false, 0⟩
    | (ch1, Except.ok tables) =>
      let afterDDL : Ch ⊕ InsertOutcome :=
        if tables.contains table then
          if cleanDataInDateRange then
            match ch1.execute
                (generateAlterQuery df table db partitionByTable
                  cleanDataWhereColumns) with
            | (ch2, Except.ok _) => Sum.inl ch2
            | (ch2, Except.error _) => Sum.inr ⟨ch2, Except.ok false, 0⟩
          else Sum.inl ch1
        else
          match ch1.execute
              (some (generateCreateTableQuery cfg df db table
                (partitionByFunction ++ "(" ++ partitionByTable ++ ")")
                orderBy)) with
          | (ch2, Except.ok _) => Sum.inl ch2
          | (ch2, Except.error _) => Sum.inr ⟨ch2, Except.ok false, 0⟩
      match afterDDL with
      | Sum.inr out => out
      | Sum.inl ch2 =>
        match ch2.insertDataframe (insertIntoSql df db table) with
        | (ch3, Except.ok _) => ⟨ch3, Except.ok true, 0⟩
        | (ch3, Except.error code2) =>
          if code2 = 16 then
            match syncTableSchema cfg ch3 df table db with
            | (ch4, Except.error m) => ⟨ch4, Except.error m, 0⟩
            | (ch4, Except.ok _) =>
              if 1 ≤ retryCounter then
                ⟨ch4, Except.error "failed insert_dataframe in clickhouse", 0⟩
              else
                let inner := insertAux gas cfg ch4 df table (some db)
                  cleanDataInDateRange cleanDataWhereColumns partitionByTable
                  partitionByFunction (some orderBy) (retryCounter + 1)
                ⟨inner.ch, inner.result, inner.recCount + 1⟩
          else ⟨ch3, Except.ok false, 0⟩

/-- Insert.insertDataInClickhouse, the modelled entry point.  The budget 2
covers the top-level invocation plus the single recursion the guard can ever
allow. -/
def insertDataInClickhouse {V : Type} [LinearOrder V] [DecidableEq V]
    [ToString V] (cfg : InsertCfg) (ch : Ch) (df : DataFrame V)
    (table : String) (dbArg : Option String) (cleanDataInDateRange : Bool)
    (cleanDataWhereColumns : List String) (partitionByTable : String)
    (partitionByFunction : String) (orderByArg : Option String)
    (retryCounter : Nat) : InsertOutcome :=
  insertAux 2 cfg ch df table dbArg cleanDataInDateRange cleanDataWhereColumns
    partitionByTable partitionByFunction orderByArg retryCounter

/-- The Insert constructor after the client connection is made: it runs
createDatabase on the stored default database and raises when that fails. -/
def insertInit (cfg : InsertCfg) (ch : Ch) : Ch × Except String InsertCfg :=
  match createDatabase cfg ch none with
  | (ch1, Except.ok _) => (ch1, Except.ok cfg)
  | (ch1, Except.error m) => (ch1, Except.error m)

/-- Boolean success test for an Except value. -/
def exceptOk {ε α : Type} : Except ε α → Bool
  | Except.ok _ => true
  | Except.error _ => false

/-- Claim C5: pandasToClickhouseType is total and resolves a column name that
is a key of the override map to the override value whatever the semantic type
is; otherwise it resolves the semantic type through the built-in mapping and
falls back to String when the semantic type is absent from it. -/
theorem c5_resolveType_total (cfg : InsertCfg) (n t v w : String) :
    (cfg.columnTypeMap.lookup n = some v →
      pandasToClickhouseType cfg n t = v) ∧
    (cfg.columnTypeMap.lookup n = none → mapping.lookup t = some w →
      pandasToClickhouseType cfg n t = w) ∧
    (cfg.columnTypeMap.lookup n = none → mapping.lookup t = none →
      pandasToClickhouseType cfg n t = "String") := by
  refine ⟨fun h => ?_, fun h1 h2 => ?_, fun h1 h2 => ?_⟩
  · simp [pandasToClickhouseType, h]
  · simp [pandasToClickhouseType, h1, h2]
  · simp [pandasToClickhouseType, h1, h2]

/-- Witness for C5 at concrete inputs covering all three branches. -/
theorem c5_witness :
    pandasToClickhouseType defaultInsertCfg "date" "int64" = "DateTime64(3)" ∧
    pandasToClickhouseType defaultInsertCfg "x" "int64" = "Int64" ∧
    pandasToClickhouseType defaultInsertCfg "x" "weird" = "String" :=
  ⟨(c5_resolveType_total defaultInsertCfg "date" "int64" "DateTime64(3)"
      "Int64").1 rfl,
   (c5_resolveType_total defaultInsertCfg "x" "int64" "DateTime64(3)"
      "Int64").2.1 rfl rfl,
   (c5_resolveType_total defaultInsertCfg "x" "weird" "DateTime64(3)"
      "Int64").2.2 rfl rfl⟩

/-- Claim C10: under the default configuration any column literally named
date or Date resolves to DateTime64(3) regardless of its pandas dtype,
because the built-in override map contains exactly those two name keys. -/
theorem c10_date_name_always_datetime (t : String) :
    pandasToClickhouseType defaultInsertCfg "date" t = "DateTime64(3)" ∧
    pandasToClickhouseType defaultInsertCfg "Date" t = "DateTime64(3)" :=
  ⟨rfl, rfl⟩

/-- Claim C9: the constructor always sends CREATE DATABASE IF NOT EXISTS for
the configured default database, and it returns an instance exactly when that
statement succeeds, raising a wrapped exception otherwise. -/
theorem c9_constructor_creates_default_db (cfg : InsertCfg) (ch : Ch) :
    (insertInit cfg ch).1.trace =
      ch.trace ++ [ChStmt.exec (createDatabaseSql cfg.db)] ∧
    exceptOk (insertInit cfg ch).2 =
      exceptOk (ch.respond ch.trace (ChStmt.exec (createDatabaseSql cfg.db))) := by
  cases hr : ch.respond ch.trace (ChStmt.exec (createDatabaseSql cfg.db)) <;>
    simp [insertInit, createDatabase, Ch.execute, Ch.executeStmt, hr, exceptOk]

/-- Claim C1: when the table exists, cleanup is requested and cleanup
generation fails, insert returns false; the trace shows that nothing beyond
the SHOW TABLES probe was sent, so no delete and no insert reached the
database, and no recursion happened.  (The Python code feeds the boolean
False into Client.execute, which raises inside the driver before sending
anything; the generic handler then returns False.) -/
theorem c1_cleanup_generation_failure {V : Type} [LinearOrder V]
    [DecidableEq V] [ToString V] (cfg : InsertCfg) (ch : Ch) (df : DataFrame V)
    (table : String) (dbArg : Option String) (cdwc : List String)
    (pbt pbf : String) (obArg : Option String) (rc : Nat)
    (tables : List String)
    (hresp : ch.respond ch.trace
      (ChStmt.exec (showTablesSql (dbArg.getD cfg.db))) = Except.ok tables)
    (htbl : table ∈ tables)
    (hgen : generateAlterQuery df table (dbArg.getD cfg.db) pbt cdwc = none) :
    (insertDataInClickhouse cfg ch df table dbArg true cdwc pbt pbf obArg
        rc).result = Except.ok false ∧
    (insertDataInClickhouse cfg ch df table dbArg true cdwc pbt pbf obArg
        rc).ch.trace =
      ch.trace ++ [ChStmt.exec (showTablesSql (dbArg.getD cfg.db))] ∧
    (insertDataInClickhouse cfg ch df table dbArg true cdwc pbt pbf obArg
        rc).recCount = 0 := by
  simp [insertDataInClickhouse, insertAux, Ch.execute, Ch.executeStmt,
    hresp, htbl, hgen]

/-- A server oracle for the C1 witness: the table t exists, everything else
succeeds blandly. -/
def c1Oracle : Ch :=
  ⟨fun _ s => match s with
    | ChStmt.exec q =>
      if q = showTablesSql "default" then Except.ok ["t"] else Except.ok []
    | ChStmt.insertDf _ => Except.ok [], []⟩

/-- A dataframe whose predicate column m has two distinct values, so cleanup
generation fails on it. -/
def c1Frame : DataFrame Nat :=
  DataFrame.mk [⟨"date", "int64", [1, 2]⟩, ⟨"m", "int64", [1, 2]⟩]

/-- Witness for C1 at the concrete oracle and dataframe above. -/
theorem c1_witness :
    (insertDataInClickhouse defaultInsertCfg c1Oracle c1Frame
        "t" none true ["m"] "date" "toYYYYMM" none 0).result =
      Except.ok false :=
  (c1_cleanup_generation_failure defaultInsertCfg c1Oracle c1Frame "t" none
    ["m"] "date" "toYYYYMM" none 0 ["t"] rfl (by decide) (by decide)).1

/-- Claim C8: a table-listing failure with a code other than 81 and a
bulk-insert failure with a code other than 16 both make insert return false
with no retry, no recursion and no raise; the final trace pins down exactly
which statements were sent. -/
theorem c8_unrecognized_codes_return_false {V : Type} [LinearOrder V]
    [DecidableEq V] [ToString V] (cfg : InsertCfg) (ch : Ch) (df : DataFrame V)
    (table : String) (dbArg : Option String) (clean : Bool)
    (cdwc : List String) (pbt pbf : String) (obArg : Option String) (rc : Nat)
    (code : Nat) (tables : List String) (code2 : Nat) :
    (ch.respond ch.trace
        (ChStmt.exec (showTablesSql (dbArg.getD cfg.db))) = Except.error code →
      code ≠ 81 →
      insertDataInClickhouse cfg ch df table dbArg clean cdwc pbt pbf obArg
          rc =
        ⟨⟨ch.respond,
            ch.trace ++ [ChStmt.exec (showTablesSql (dbArg.getD cfg.db))]⟩,
          Except.ok false, 0⟩) ∧
    (ch.respond ch.trace
        (ChStmt.exec (showTablesSql (dbArg.getD cfg.db))) = Except.ok tables →
      table ∈ tables →
      ch.respond
          (ch.trace ++ [ChStmt.exec (showTablesSql (dbArg.getD cfg.db))])
          (ChStmt.insertDf (insertIntoSql df (dbArg.getD cfg.db) table)) =
        Except.error code2 →
      code2 ≠ 16 →
      insertDataInClickhouse cfg ch df table dbArg false cdwc pbt pbf obArg
          rc =
        ⟨⟨ch.respond,
            ch.trace ++ [ChStmt.exec (showTablesSql (dbArg.getD cfg.db)),
              ChStmt.insertDf (insertIntoSql df (dbArg.getD cfg.db) table)]⟩,
          Except.ok false, 0⟩) := by
  constructor
  · intro hresp hcode
    simp [insertDataInClickhouse, insertAux, Ch.execute, Ch.executeStmt,
      hresp, hcode]
  · intro hresp htbl hins hcode2
    simp [insertDataInClickhouse, insertAux, Ch.execute, Ch.executeStmt,
      Ch.insertDataframe, hresp, htbl, hins, hcode2]

/-- A server oracle failing every call with the opaque code 999. -/
def c8OracleA : Ch := ⟨fun _ _ => Except.error 999, []⟩

/-- A server oracle where the table t exists but every bulk insert fails
with the opaque code 999. -/
def c8OracleB : Ch :=
  ⟨fun _ s => match s with
    | ChStmt.exec _ => Except.ok ["t"]
    | ChStmt.insertDf _ => Except.error 999, []⟩

/-- A one-column dataframe used by several witnesses. -/
def dateFrame : DataFrame Nat := DataFrame.mk [⟨"date", "int64", [1, 2]⟩]

/-- Witness for C8: a generic listing failure (code 999) and a generic
insert failure (code 999) at concrete inputs. -/
theorem c8_witness :
    (insertDataInClickhouse defaultInsertCfg c8OracleA dateFrame
        "t" none true [] "date" "toYYYYMM" none 0).result = Except.ok false ∧
    (insertDataInClickhouse defaultInsertCfg c8OracleB dateFrame
        "t" none false [] "date" "toYYYYMM" none 0).result = Except.ok false := by
  constructor
  · exact congrArg InsertOutcome.result
      ((c8_unrecognized_codes_return_false defaultInsertCfg c8OracleA
        dateFrame "t" none true [] "date" "toYYYYMM" none 0 999 [] 999).1
        rfl (by decide))
  · exact congrArg InsertOutcome.result
      ((c8_unrecognized_codes_return_false defaultInsertCfg c8OracleB
        dateFrame "t" none true [] "date" "toYYYYMM" none 0 999 ["t"] 999).2
        rfl (by decide) rfl (by decide))

/-- Once the retry counter is at least 1, no recursion can happen, so the
instrumented recursion count is 0. -/
theorem insertAux_retry_recCount_zero {V : Type} [LinearOrder V]
    [DecidableEq V] [ToString V] (gas : Nat) (cfg : InsertCfg) (ch : Ch)
    (df : DataFrame V) (table : String) (dbArg : Option String) (clean : Bool)
    (cdwc : List String) (pbt pbf : String) (obArg : Option String) (rc : Nat)
    (hrc : 1 ≤ rc) :
    (insertAux gas cfg ch df table dbArg clean cdwc pbt pbf obArg
        rc).recCount = 0 := by
  cases gas with
  | zero => rfl
  | succ g =>
    simp only [insertAux, if_pos hrc]
    repeat' split
    all_goals try rfl
    all_goals
      rename_i out heq
      repeat' split at heq
      all_goals cases heq
      all_goals rfl

/-- Once the retry counter is at least 1, the value of the structural
recursion budget is irrelevant: both recursion sites are dead. -/
theorem insertAux_gas_irrelevant {V : Type} [LinearOrder V] [DecidableEq V]
    [ToString V] (g g2 : Nat) (cfg : InsertCfg) (ch : Ch) (df : DataFrame V)
    (table : String) (dbArg : Option String) (clean : Bool)
    (cdwc : List String) (pbt pbf : String) (obArg : Option String) (rc : Nat)
    (hrc : 1 ≤ rc) :
    insertAux (g + 1) cfg ch df table dbArg clean cdwc pbt pbf obArg rc =
      insertAux (g2 + 1) cfg ch df table dbArg clean cdwc pbt pbf obArg rc := by
  simp only [insertAux, if_pos hrc]

/-- Every invocation performs at most one recursive self call: the retry
counter is shared between the two recovery classes, and the recursion sites
only fire when it is still 0, passing 1. -/
theorem insertAux_recCount_le_one {V : Type} [LinearOrder V] [DecidableEq V]
    [ToString V] (g : Nat) (cfg : InsertCfg) (ch : Ch) (df : DataFrame V)
    (table : String) (dbArg : Option String) (clean : Bool)
    (cdwc : List String) (pbt pbf : String) (obArg : Option String)
    (rc : Nat) :
    (insertAux (g + 1) cfg ch df table dbArg clean cdwc pbt pbf obArg
        rc).recCount ≤ 1 := by
  rcases Nat.lt_or_ge rc 1 with h | h
  · obtain rfl : rc = 0 := by omega
    have h0 : ¬ (1 : Nat) ≤ 0 := by omega
    simp only [insertAux, if_neg h0]
    repeat' split
    all_goals try simp [insertAux_retry_recCount_zero]
    all_goals
      rename_i out heq
      repeat' split at heq
      all_goals cases heq
      all_goals simp [insertAux_retry_recCount_zero]
  · simp [insertAux_retry_recCount_zero (g + 1) cfg ch df table dbArg clean
      cdwc pbt pbf obArg rc h]

/-- If every dataframe column is already present remotely, the sync loop
sends nothing and succeeds. -/
theorem syncLoop_all_present {V : Type} (cfg : InsertCfg) (db table : String)
    (columnNames : List String) (cs : List (DfColumn V)) (ch : Ch)
    (hall : ∀ c ∈ cs, c.name ∈ columnNames) :
    syncLoop cfg db table columnNames cs ch = (ch, Except.ok ()) := by
  induction cs with
  | nil => rfl
  | cons c rest ih =>
    have hc : c.name ∈ columnNames := hall c (by simp)
    simp only [syncLoop]
    rw [if_pos (by simpa using hc)]
    exact ih (fun x hx => hall x (by simp [hx]))

/-- Oracle for the C2 counterexample: the database is missing on the very
first listing and present afterwards (with table t); every bulk insert fails
with the missing-column code 16; every other statement succeeds, DESCRIBE
reporting the single column a. -/
def c2Oracle : Ch :=
  ⟨fun hist s => match s with
    | ChStmt.exec q =>
      if q = showTablesSql "default" then
        if hist = [] then Except.error 81 else Except.ok ["t"]
      else Except.ok ["a"]
    | ChStmt.insertDf _ => Except.error 16, []⟩

/-- A one-column dataframe named a for the C2 counterexample. -/
def c2Frame : DataFrame Nat := DataFrame.mk [⟨"a", "int64", [1, 2]⟩]

/-- Counterexample to C2 as stated: when the missing-database condition and
the missing-column condition arise in sequence within one top-level call,
the code does NOT perform a second recursion.  The single shared retry
counter is already 1 after the database-missing recursion, so the
missing-column handler runs the schema sync and then raises; the run below
ends in a raised exception with exactly one recursion, and the trace shows
no retried insert after the DESCRIBE. -/
theorem c2_counterexample :
    (insertDataInClickhouse defaultInsertCfg c2Oracle c2Frame "t" none false
        [] "date" "toYYYYMM" none 0).result =
      Except.error "failed insert_dataframe in clickhouse" ∧
    (insertDataInClickhouse defaultInsertCfg c2Oracle c2Frame "t" none false
        [] "date" "toYYYYMM" none 0).recCount = 1 ∧
    (insertDataInClickhouse defaultInsertCfg c2Oracle c2Frame "t" none false
        [] "date" "toYYYYMM" none 0).ch.trace =
      [ChStmt.exec (showTablesSql "default"),
        ChStmt.exec (createDatabaseSql "default"),
        ChStmt.exec (showTablesSql "default"),
        ChStmt.insertDf (insertIntoSql c2Frame "default" "t"),
        ChStmt.exec (describeSql "default" "t")] :=
  ⟨rfl, rfl, rfl⟩

/-- Claim C2 (amended): within a single top-level call at most ONE recursion
happens in total, because the retry counter is shared between the two
recovery classes (the claim said up to two, one per class); and the
database-missing recursion passes the resolved parameters through unchanged
except the retry counter, which becomes 1. -/
theorem c2_amended_single_shared_retry {V : Type} [LinearOrder V]
    [DecidableEq V] [ToString V] (cfg : InsertCfg) (ch : Ch) (df : DataFrame V)
    (table : String) (dbArg : Option String) (clean : Bool)
    (cdwc : List String) (pbt pbf : String) (obArg : Option String) (rc : Nat)
    (rows : List String) :
    (insertDataInClickhouse cfg ch df table dbArg clean cdwc pbt pbf obArg
        rc).recCount ≤ 1 ∧
    (ch.respond ch.trace (ChStmt.exec (showTablesSql (dbArg.getD cfg.db))) =
        Except.error 81 →
      ch.respond
          (ch.trace ++ [ChStmt.exec (showTablesSql (dbArg.getD cfg.db))])
          (ChStmt.exec (createDatabaseSql (dbArg.getD cfg.db))) =
        Except.ok rows →
      insertDataInClickhouse cfg ch df table dbArg clean cdwc pbt pbf obArg
          0 =
        ⟨(insertDataInClickhouse cfg
            ⟨ch.respond,
              ch.trace ++ [ChStmt.exec (showTablesSql (dbArg.getD cfg.db)),
                ChStmt.exec (createDatabaseSql (dbArg.getD cfg.db))]⟩
            df table (some (dbArg.getD cfg.db)) clean cdwc pbt pbf
            (some (obArg.getD pbt)) 1).ch,
          (insertDataInClickhouse cfg
            ⟨ch.respond,
              ch.trace ++ [ChStmt.exec (showTablesSql (dbArg.getD cfg.db)),
                ChStmt.exec (createDatabaseSql (dbArg.getD cfg.db))]⟩
            df table (some (dbArg.getD cfg.db)) clean cdwc pbt pbf
            (some (obArg.getD pbt)) 1).result,
          (insertDataInClickhouse cfg
            ⟨ch.respond,
              ch.trace ++ [ChStmt.exec (showTablesSql (dbArg.getD cfg.db)),
                ChStmt.exec (createDatabaseSql (dbArg.getD cfg.db))]⟩
            df table (some (dbArg.getD cfg.db)) clean cdwc pbt pbf
            (some (obArg.getD pbt)) 1).recCount + 1⟩) := by
  constructor
  · exact insertAux_recCount_le_one 1 cfg ch df table dbArg clean cdwc pbt
      pbf obArg rc
  · intro h81 hcr
    simp [insertDataInClickhouse, insertAux, Ch.execute, Ch.executeStmt,
      createDatabase, h81, hcr]

/-- The client state after the SHOW TABLES probe and the CREATE DATABASE of
the database-missing recovery, for the C2 witness. -/
def c2After : Ch :=
  ⟨c2Oracle.respond,
    [ChStmt.exec (showTablesSql "default"),
      ChStmt.exec (createDatabaseSql "default")]⟩

/-- Witness for C2 (amended) at the concrete oracle of the counterexample. -/
theorem c2_amended_witness :
    (insertDataInClickhouse defaultInsertCfg c2Oracle c2Frame "t" none false
        [] "date" "toYYYYMM" none 0).recCount ≤ 1 ∧
    insertDataInClickhouse defaultInsertCfg c2Oracle c2Frame "t" none false
        [] "date" "toYYYYMM" none 0 =
      ⟨(insertDataInClickhouse defaultInsertCfg c2After c2Frame "t"
          (some "default") false [] "date" "toYYYYMM" (some "date") 1).ch,
        (insertDataInClickhouse defaultInsertCfg c2After c2Frame "t"
          (some "default") false [] "date" "toYYYYMM" (some "date") 1).result,
        (insertDataInClickhouse defaultInsertCfg c2After c2Frame "t"
          (some "default") false [] "date" "toYYYYMM" (some "date")
          1).recCount + 1⟩ :=
  ⟨(c2_amended_single_shared_retry defaultInsertCfg c2Oracle c2Frame "t" none
      false [] "date" "toYYYYMM" none 0 ["a"]).1,
    (c2_amended_single_shared_retry defaultInsertCfg c2Oracle c2Frame "t" none
      false [] "date" "toYYYYMM" none 0 ["a"]).2 rfl rfl⟩

/-- Oracle for the C3 counterexample: the table listing always fails with
the unknown-database code 81; everything else succeeds. -/
def c3Oracle : Ch :=
  ⟨fun _ s => match s with
    | ChStmt.exec q =>
      if q = showTablesSql "default" then Except.error 81 else Except.ok []
    | ChStmt.insertDf _ => Except.ok [], []⟩

/-- Counterexample to C3 as stated: with retryCounter already 1, the
unknown-database handler still performs the database creation (the CREATE
DATABASE statement is in the trace) before raising, so creation is NOT
confined to the retryDepth < 1 branch. -/
theorem c3_counterexample :
    (insertDataInClickhouse defaultInsertCfg c3Oracle dateFrame "t" none true
        [] "date" "toYYYYMM" none 1).result =
      Except.error "failed execute in clickhouse" ∧
    (insertDataInClickhouse defaultInsertCfg c3Oracle dateFrame "t" none true
        [] "date" "toYYYYMM" none 1).ch.trace =
      [ChStmt.exec (showTablesSql "default"),
        ChStmt.exec (createDatabaseSql "default")] :=
  ⟨rfl, rfl⟩

/-- Claim C3 (amended): on the unknown-database code the handler always runs
the database creation first and only then consults the retry counter,
raising when it is at least 1; symmetrically, on the missing-column code the
schema synchronization always runs before the counter check, which then
raises.  The raising halves of the original claim hold; the only-if halves
about the recovery actions do not. -/
theorem c3_amended_recovery_before_depth_check {V : Type} [LinearOrder V]
    [DecidableEq V] [ToString V] (cfg : InsertCfg) (ch : Ch) (df : DataFrame V)
    (table : String) (dbArg : Option String) (clean : Bool)
    (cdwc : List String) (pbt pbf : String) (obArg : Option String) (rc : Nat)
    (rows tables cols : List String) :
    (ch.respond ch.trace (ChStmt.exec (showTablesSql (dbArg.getD cfg.db))) =
        Except.error 81 →
      ch.respond
          (ch.trace ++ [ChStmt.exec (showTablesSql (dbArg.getD cfg.db))])
          (ChStmt.exec (createDatabaseSql (dbArg.getD cfg.db))) =
        Except.ok rows →
      1 ≤ rc →
      insertDataInClickhouse cfg ch df table dbArg clean cdwc pbt pbf obArg
          rc =
        ⟨⟨ch.respond,
            ch.trace ++ [ChStmt.exec (showTablesSql (dbArg.getD cfg.db)),
              ChStmt.exec (createDatabaseSql (dbArg.getD cfg.db))]⟩,
          Except.error "failed execute in clickhouse", 0⟩) ∧
    (ch.respond ch.trace (ChStmt.exec (showTablesSql (dbArg.getD cfg.db))) =
        Except.ok tables →
      table ∈ tables →
      ch.respond
          (ch.trace ++ [ChStmt.exec (showTablesSql (dbArg.getD cfg.db))])
          (ChStmt.insertDf (insertIntoSql df (dbArg.getD cfg.db) table)) =
        Except.error 16 →
      ch.respond
          (ch.trace ++ [ChStmt.exec (showTablesSql (dbArg.getD cfg.db)),
            ChStmt.insertDf (insertIntoSql df (dbArg.getD cfg.db) table)])
          (ChStmt.exec (describeSql (dbArg.getD cfg.db) table)) =
        Except.ok cols →
      (∀ c ∈ df.cols, c.name ∈ cols) →
      1 ≤ rc →
      insertDataInClickhouse cfg ch df table dbArg false cdwc pbt pbf obArg
          rc =
        ⟨⟨ch.respond,
            ch.trace ++ [ChStmt.exec (showTablesSql (dbArg.getD cfg.db)),
              ChStmt.insertDf (insertIntoSql df (dbArg.getD cfg.db) table),
              ChStmt.exec (describeSql (dbArg.getD cfg.db) table)]⟩,
          Except.error "failed insert_dataframe in clickhouse", 0⟩) := by
  constructor
  · intro h81 hcr hrc
    simp [insertDataInClickhouse, insertAux, Ch.execute, Ch.executeStmt,
      createDatabase, h81, hcr, hrc]
  · intro hsh htb hins hdesc hall hrc
    have hsync : ∀ ch2 : Ch,
        syncLoop cfg (dbArg.getD cfg.db) table cols df.cols ch2 =
          (ch2, Except.ok ()) :=
      fun ch2 =>
        syncLoop_all_present cfg (dbArg.getD cfg.db) table cols df.cols ch2
          hall
    simp [insertDataInClickhouse, insertAux, Ch.execute, Ch.executeStmt,
      Ch.insertDataframe, syncTableSchema, hsh, htb, hins, hdesc, hsync, hrc]

/-- Oracle for the schema-sync half of the C3 witness: table t exists, bulk
inserts fail with code 16, DESCRIBE reports the single column date. -/
def c3SyncOracle : Ch :=
  ⟨fun _ s => match s with
    | ChStmt.exec q =>
      if q = showTablesSql "default" then Except.ok ["t"]
      else Except.ok ["date"]
    | ChStmt.insertDf _ => Except.error 16, []⟩

/-- Witness for C3 (amended) covering both conjuncts at concrete inputs. -/
theorem c3_amended_witness :
    (insertDataInClickhouse defaultInsertCfg c3Oracle dateFrame "t" none true
        [] "date" "toYYYYMM" none 1).result =
      Except.error "failed execute in clickhouse" ∧
    (insertDataInClickhouse defaultInsertCfg c3SyncOracle dateFrame "t" none
        false [] "date" "toYYYYMM" none 1).result =
      Except.error "failed insert_dataframe in clickhouse" := by
  constructor
  · exact congrArg InsertOutcome.result
      ((c3_amended_recovery_before_depth_check defaultInsertCfg c3Oracle
        dateFrame "t" none true [] "date" "toYYYYMM" none 1 [] [] []).1
        rfl rfl (by omega))
  · exact congrArg InsertOutcome.result
      ((c3_amended_recovery_before_depth_check defaultInsertCfg c3SyncOracle
        dateFrame "t" none true [] "date" "toYYYYMM" none 1 [] ["t"]
        ["date"]).2 rfl (by decide) rfl rfl (by decide) (by omega))

/-- Oracle for C4: the table listing always fails with the unknown-database
code 81 no matter what was sent before; database creation succeeds. -/
def c4Oracle : Ch :=
  ⟨fun _ s => match s with
    | ChStmt.exec q =>
      if q = showTablesSql "default" then Except.error 81 else Except.ok []
    | ChStmt.insertDf _ => Except.ok [], []⟩

/-- Claim C4: against a client whose table listing always reports the
unknown-database code, insert raises a fatal error after exactly one
recovery recursion; the recursion count is 1, never more, and the trace
shows the two attempts before the raise. -/
theorem c4_retry_bound {V : Type} [LinearOrder V] [DecidableEq V]
    [ToString V] (cfg : InsertCfg) (ch : Ch) (df : DataFrame V)
    (table : String) (dbArg : Option String) (clean : Bool)
    (cdwc : List String) (pbt pbf : String) (obArg : Option String)
    (hshow : ∀ hist, ch.respond hist
      (ChStmt.exec (showTablesSql (dbArg.getD cfg.db))) = Except.error 81)
    (hcreate : ∀ hist, ch.respond hist
      (ChStmt.exec (createDatabaseSql (dbArg.getD cfg.db))) = Except.ok []) :
    (insertDataInClickhouse cfg ch df table dbArg clean cdwc pbt pbf obArg
        0).result = Except.error "failed execute in clickhouse" ∧
    (insertDataInClickhouse cfg ch df table dbArg clean cdwc pbt pbf obArg
        0).recCount = 1 ∧
    (insertDataInClickhouse cfg ch df table dbArg clean cdwc pbt pbf obArg
        0).ch.trace =
      ch.trace ++ [ChStmt.exec (showTablesSql (dbArg.getD cfg.db)),
        ChStmt.exec (createDatabaseSql (dbArg.getD cfg.db)),
        ChStmt.exec (showTablesSql (dbArg.getD cfg.db)),
        ChStmt.exec (createDatabaseSql (dbArg.getD cfg.db))] := by
  simp [insertDataInClickhouse, insertAux, Ch.execute, Ch.executeStmt,
    createDatabase, hshow, hcreate]

/-- Witness for C4 at the concrete always-failing oracle. -/
theorem c4_witness :
    (insertDataInClickhouse defaultInsertCfg c4Oracle dateFrame "t" none true
        [] "date" "toYYYYMM" none 0).result =
      Except.error "failed execute in clickhouse" ∧
    (insertDataInClickhouse defaultInsertCfg c4Oracle dateFrame "t" none true
        [] "date" "toYYYYMM" none 0).recCount = 1 ∧
    (insertDataInClickhouse defaultInsertCfg c4Oracle dateFrame "t" none true
        [] "date" "toYYYYMM" none 0).ch.trace =
      [ChStmt.exec (showTablesSql "default"),
        ChStmt.exec (createDatabaseSql "default"),
        ChStmt.exec (showTablesSql "default"),
        ChStmt.exec (createDatabaseSql "default")] :=
  c4_retry_bound defaultInsertCfg c4Oracle dateFrame "t" none true []
    "date" "toYYYYMM" none (fun _ => rfl) (fun _ => rfl)

/-- Decidable per-key condition for the C6 statement: the predicate column
is absent, or present with exactly one distinct value. -/
def keyOk {V : Type} [DecidableEq V] (df : DataFrame V) (k : String) : Bool :=
  match df.getCol k with
  | none => true
  | some c => (dedupList c.values).length == 1

/-- Decidable per-key condition: the predicate column is present with a
distinct-value count different from one. -/
def keyBad {V : Type} [DecidableEq V] (df : DataFrame V) (k : String) : Bool :=
  match df.getCol k with
  | none => false
  | some c => !((dedupList c.values).length == 1)

/-- Specification-side rendering of the AND clauses the cleanup loop
appends: one exact-match clause per present uniform key, in the given
order, skipped keys contributing nothing. -/
def uniformClauses {V : Type} [DecidableEq V] [ToString V] (df : DataFrame V) :
    List String → String
  | [] => ""
  | k :: ks =>
    (match df.getCol k with
      | none => ""
      | some c =>
        match dedupList c.values with
        | [v] => alterClause k v
        | _ => "") ++ uniformClauses df ks

/-- Specification-side list of the pinned column-value pairs the cleanup
loop collects, in the given order. -/
def collectPins {V : Type} [DecidableEq V] (df : DataFrame V) :
    List String → List (String × V)
  | [] => []
  | k :: ks =>
    (match df.getCol k with
      | none => []
      | some c =>
        match dedupList c.values with
        | [v] => [(k, v)]
        | _ => []) ++ collectPins df ks

/-- When every key is absent or uniform, the cleanup loop succeeds and
appends exactly the uniform clauses and pins, in order. -/
theorem alterLoop_uniform {V : Type} [DecidableEq V] [ToString V]
    (df : DataFrame V) (keys : List String) (acc : String)
    (cc : List (String × V)) (hok : ∀ k ∈ keys, keyOk df k = true) :
    alterLoop df keys acc cc =
      some (acc ++ uniformClauses df keys, cc ++ collectPins df keys) := by
  induction keys generalizing acc cc with
  | nil => simp [alterLoop, uniformClauses, collectPins]
  | cons k ks ih =>
    have hk : keyOk df k = true := hok k (by simp)
    have hks : ∀ x ∈ ks, keyOk df x = true := fun x hx => hok x (by simp [hx])
    cases hcol : df.getCol k with
    | none =>
      simp [alterLoop, hcol, uniformClauses, collectPins, ih _ _ hks]
    | some c =>
      have hlen : (dedupList c.values).length = 1 := by
        simpa [keyOk, hcol] using hk
      obtain ⟨v, hv⟩ := List.length_eq_one.mp hlen
      simp [alterLoop, hcol, hv, uniformClauses, collectPins, ih _ _ hks,
        String.append_assoc, List.append_assoc]

/-- If some key is present with a distinct-value count different from one,
the cleanup loop fails. -/
theorem alterLoop_bad {V : Type} [DecidableEq V] [ToString V]
    (df : DataFrame V) (keys : List String) (acc : String)
    (cc : List (String × V)) (hbad : ∃ k ∈ keys, keyBad df k = true) :
    alterLoop df keys acc cc = none := by
  induction keys generalizing acc cc with
  | nil => simp at hbad
  | cons k ks ih =>
    rcases hbad with ⟨k0, hk0mem, hk0⟩
    rcases List.mem_cons.mp hk0mem with rfl | hmem
    · cases hcol : df.getCol k0 with
      | none => simp [keyBad, hcol] at hk0
      | some c =>
        have hne : (dedupList c.values).length ≠ 1 := by
          simpa [keyBad, hcol] using hk0
        match hd : dedupList c.values with
        | [] => simp [alterLoop, hcol, hd]
        | [v] => simp [hd] at hne
        | a :: b :: t => simp [alterLoop, hcol, hd]
    · cases hcol : df.getCol k with
      | none => simpa [alterLoop, hcol] using ih _ _ ⟨k0, hmem, hk0⟩
      | some c =>
        match hd : dedupList c.values with
        | [] => simp [alterLoop, hcol, hd]
        | [v] => simpa [alterLoop, hcol, hd] using ih _ _ ⟨k0, hmem, hk0⟩
        | a :: b :: t => simp [alterLoop, hcol, hd]

/-- If every key is absent, the cleanup loop changes nothing. -/
theorem alterLoop_missing {V : Type} [DecidableEq V] [ToString V]
    (df : DataFrame V) (keys : List String) (acc : String)
    (cc : List (String × V)) (hmiss : ∀ k ∈ keys, df.getCol k = none) :
    alterLoop df keys acc cc = some (acc, cc) := by
  induction keys with
  | nil => rfl
  | cons k ks ih =>
    simp only [alterLoop, hmiss k (by simp)]
    exact ih (fun x hx => hmiss x (by simp [hx]))

/-- With every key absent-or-uniform and at least one present, at least one
pin is collected. -/
theorem collectPins_ne_nil {V : Type} [DecidableEq V] (df : DataFrame V)
    (keys : List String) (hok : ∀ k ∈ keys, keyOk df k = true)
    (hpres : ∃ k ∈ keys, (df.getCol k).isSome = true) :
    collectPins df keys ≠ [] := by
  induction keys with
  | nil => simp at hpres
  | cons k ks ih =>
    rcases hpres with ⟨k0, hmem, hk0⟩
    rcases List.mem_cons.mp hmem with rfl | hmem2
    · cases hcol : df.getCol k0 with
      | none => simp [hcol] at hk0
      | some c =>
        have hlen : (dedupList c.values).length = 1 := by
          simpa [keyOk, hcol] using hok k0 (by simp)
        obtain ⟨v, hv⟩ := List.length_eq_one.mp hlen
        simp [collectPins, hcol, hv]
    · cases hcol : df.getCol k with
      | none =>
        simpa [collectPins, hcol] using
          ih (fun x hx => hok x (by simp [hx])) ⟨k0, hmem2, hk0⟩
      | some c =>
        have hlen : (dedupList c.values).length = 1 := by
          simpa [keyOk, hcol] using hok k (by simp)
        obtain ⟨v, hv⟩ := List.length_eq_one.mp hlen
        simp [collectPins, hcol, hv]

/-- Claim C6: cleanup generation builds the inclusive BETWEEN delete over
the stringified partition-column range; a failed range computation yields a
non-fatal false (none); present uniform predicate columns append exact-match
AND clauses in order; a present non-uniform predicate column fails the whole
generation; and a non-empty predicate list in which every entry was skipped
fails the whole generation. -/
theorem c6_generateAlterQuery_spec {V : Type} [LinearOrder V] [DecidableEq V]
    [ToString V] (df : DataFrame V) (table db pbt : String)
    (keys : List String) (mn mx : V) :
    (dfMin df pbt = none → generateAlterQuery df table db pbt keys = none) ∧
    (dfMin df pbt = some mn → dfMax df pbt = some mx →
      generateAlterQuery df table db pbt [] =
        some (baseAlterSql db table pbt mn mx)) ∧
    (dfMin df pbt = some mn → dfMax df pbt = some mx →
      (∀ k ∈ keys, keyOk df k = true) →
      (∃ k ∈ keys, (df.getCol k).isSome = true) →
      generateAlterQuery df table db pbt keys =
        some (baseAlterSql db table pbt mn mx ++ uniformClauses df keys)) ∧
    (dfMin df pbt = some mn → dfMax df pbt = some mx →
      (∃ k ∈ keys, keyBad df k = true) →
      generateAlterQuery df table db pbt keys = none) ∧
    (dfMin df pbt = some mn → dfMax df pbt = some mx → keys ≠ [] →
      (∀ k ∈ keys, df.getCol k = none) →
      generateAlterQuery df table db pbt keys = none) := by
  refine ⟨?_, ?_, ?_, ?_, ?_⟩
  · intro hmn
    simp [generateAlterQuery, hmn]
  · intro hmn hmx
    simp [generateAlterQuery, hmn, hmx]
  · intro hmn hmx hok hpres
    have hie : keys.isEmpty = false := by
      cases keys with
      | nil => simp at hpres
      | cons a l => rfl
    have hloop := alterLoop_uniform df keys (baseAlterSql db table pbt mn mx)
      [] hok
    have hcc := collectPins_ne_nil df keys hok hpres
    cases hcp : collectPins df keys with
    | nil => exact absurd hcp hcc
    | cons p ps =>
      simp [generateAlterQuery, hmn, hmx, hie, hloop, hcp]
  · intro hmn hmx hbad
    have hie : keys.isEmpty = false := by
      cases keys with
      | nil => simp at hbad
      | cons a l => rfl
    simp [generateAlterQuery, hmn, hmx, hie,
      alterLoop_bad df keys (baseAlterSql db table pbt mn mx) [] hbad]
  · intro hmn hmx hne hmiss
    have hie : keys.isEmpty = false := List.isEmpty_eq_false.mpr hne
    simp [generateAlterQuery, hmn, hmx, hie,
      alterLoop_missing df keys (baseAlterSql db table pbt mn mx) [] hmiss]

/-- Dataframe for the C6 witness: a two-day range, a uniform column job and
a non-uniform column multi. -/
def c6Frame : DataFrame Nat :=
  DataFrame.mk [⟨"date", "int64", [20240101, 20240102]⟩,
    ⟨"job", "int64", [7, 7]⟩, ⟨"multi", "int64", [1, 2]⟩]

/-- Empty dataframe for the range-failure branch of the C6 witness. -/
def c6Empty : DataFrame Nat := DataFrame.mk []

/-- Witness for C6 covering all five conjuncts at concrete inputs. -/
theorem c6_witness :
    generateAlterQuery c6Empty "t" "db" "date" ([] : List String) = none ∧
    generateAlterQuery c6Frame "t" "db" "date" ([] : List String) =
      some (baseAlterSql "db" "t" "date" 20240101 20240102) ∧
    generateAlterQuery c6Frame "t" "db" "date" ["job"] =
      some (baseAlterSql "db" "t" "date" 20240101 20240102 ++
        uniformClauses c6Frame ["job"]) ∧
    generateAlterQuery c6Frame "t" "db" "date" ["multi"] = none ∧
    generateAlterQuery c6Frame "t" "db" "date" ["nosuch"] = none := by
  refine ⟨?_, ?_, ?_, ?_, ?_⟩
  · exact (c6_generateAlterQuery_spec c6Empty "t" "db" "date" [] 0 0).1
      (by decide)
  · exact (c6_generateAlterQuery_spec c6Frame "t" "db" "date" [] 20240101
      20240102).2.1 (by decide) (by decide)
  · exact (c6_generateAlterQuery_spec c6Frame "t" "db" "date" ["job"]
      20240101 20240102).2.2.1 (by decide) (by decide) (by decide) (by decide)
  · exact (c6_generateAlterQuery_spec c6Frame "t" "db" "date" ["multi"]
      20240101 20240102).2.2.2.1 (by decide) (by decide) (by decide)
  · exact (c6_generateAlterQuery_spec c6Frame "t" "db" "date" ["nosuch"]
      20240101 20240102).2.2.2.2 (by decide) (by decide) (by decide)
      (by decide)

/-- A string with a non-empty left part stays non-empty under append. -/
theorem append_ne_empty_left (a b : String) (h : a ≠ "") : a ++ b ≠ "" := by
  intro hc
  apply h
  obtain ⟨da⟩ := a
  obtain ⟨db2⟩ := b
  have h2 : da ++ db2 = ([] : List Char) := congrArg String.data hc
  have hda : da = [] := (List.append_eq_nil.mp h2).1
  subst hda
  rfl

/-- Every rendered column line is non-empty (it starts with spaces and a
backtick). -/
theorem columnEntry_ne_empty {V : Type} (cfg : InsertCfg) (c : DfColumn V) :
    columnEntry cfg c ≠ "" := by
  unfold columnEntry
  exact append_ne_empty_left _ _ (append_ne_empty_left _ _
    (append_ne_empty_left _ _ (append_ne_empty_left _ _ (by decide))))

/-- Once the accumulator is non-empty, the column-block loop coincides with
the tail loop of String.intercalate. -/
theorem foldColumns_go {V : Type} (cfg : InsertCfg) (l : List (DfColumn V))
    (acc : String) (hacc : acc ≠ "") :
    l.foldl (fun a c =>
        if a = "" then columnEntry cfg c else a ++ "\n" ++ columnEntry cfg c)
      acc =
      String.intercalate.go acc "\n" (l.map (columnEntry cfg)) := by
  induction l generalizing acc with
  | nil => rfl
  | cons c cs ih =>
    rw [List.foldl_cons, List.map_cons, if_neg hacc]
    rw [ih _ (append_ne_empty_left _ _ (append_ne_empty_left _ _ hacc))]
    rfl

/-- The accumulated column block is the newline-intercalation of one
rendered line per column, in dataframe order, duplicates kept. -/
theorem columnsStr_eq_intercalate {V : Type} (cfg : InsertCfg)
    (cols : List (DfColumn V)) :
    cols.foldl (fun a c =>
        if a = "" then columnEntry cfg c else a ++ "\n" ++ columnEntry cfg c)
      "" =
      String.intercalate "\n" (cols.map (columnEntry cfg)) := by
  cases cols with
  | nil => rfl
  | cons c cs =>
    rw [List.foldl_cons, List.map_cons, if_pos rfl]
    rw [foldColumns_go cfg cs (columnEntry cfg c) (columnEntry_ne_empty cfg c)]
    rfl

/-- Claim C7: the create statement is the fixed CREATE IF NOT EXISTS
template around exactly one name-type line per dataframe column in dataframe
order (types via the type mapper, engine MergeTree, index_granularity 8192);
and the orchestrator executes it exactly when the table is absent from the
listing, parameterized by partitionFunction(partitionColumn) and the given
order expression, as the two trace shapes show. -/
theorem c7_create_table_spec {V : Type} [LinearOrder V] [DecidableEq V]
    [ToString V] (cfg : InsertCfg) (ch : Ch) (df : DataFrame V)
    (table : String) (dbArg : Option String) (clean : Bool)
    (cdwc : List String) (pbt pbf pb ob : String) (obArg : Option String)
    (rc : Nat) (tables rows2 rows3 : List String) :
    (generateCreateTableQuery cfg df (dbArg.getD cfg.db) table pb ob =
      "\nCREATE TABLE IF NOT EXISTS " ++ dbArg.getD cfg.db ++ "." ++ table ++
        " (\n" ++ String.intercalate "\n" (df.cols.map (columnEntry cfg)) ++
        "\n)\nENGINE MergeTree\nPARTITION BY (" ++ pb ++ ")\nORDER BY " ++
        ob ++ "\nSETTINGS index_granularity = 8192\n") ∧
    (ch.respond ch.trace (ChStmt.exec (showTablesSql (dbArg.getD cfg.db))) =
        Except.ok tables →
      table ∉ tables →
      ch.respond
          (ch.trace ++ [ChStmt.exec (showTablesSql (dbArg.getD cfg.db))])
          (ChStmt.exec (generateCreateTableQuery cfg df (dbArg.getD cfg.db)
            table (pbf ++ "(" ++ pbt ++ ")") (obArg.getD pbt))) =
        Except.ok rows2 →
      ch.respond
          (ch.trace ++ [ChStmt.exec (showTablesSql (dbArg.getD cfg.db)),
            ChStmt.exec (generateCreateTableQuery cfg df (dbArg.getD cfg.db)
              table (pbf ++ "(" ++ pbt ++ ")") (obArg.getD pbt))])
          (ChStmt.insertDf (insertIntoSql df (dbArg.getD cfg.db) table)) =
        Except.ok rows3 →
      insertDataInClickhouse cfg ch df table dbArg clean cdwc pbt pbf obArg
          rc =
        ⟨⟨ch.respond,
            ch.trace ++ [ChStmt.exec (showTablesSql (dbArg.getD cfg.db)),
              ChStmt.exec (generateCreateTableQuery cfg df (dbArg.getD cfg.db)
                table (pbf ++ "(" ++ pbt ++ ")") (obArg.getD pbt)),
              ChStmt.insertDf (insertIntoSql df (dbArg.getD cfg.db) table)]⟩,
          Except.ok true, 0⟩) ∧
    (ch.respond ch.trace (ChStmt.exec (showTablesSql (dbArg.getD cfg.db))) =
        Except.ok tables →
      table ∈ tables →
      ch.respond
          (ch.trace ++ [ChStmt.exec (showTablesSql (dbArg.getD cfg.db))])
          (ChStmt.insertDf (insertIntoSql df (dbArg.getD cfg.db) table)) =
        Except.ok rows3 →
      insertDataInClickhouse cfg ch df table dbArg false cdwc pbt pbf obArg
          rc =
        ⟨⟨ch.respond,
            ch.trace ++ [ChStmt.exec (showTablesSql (dbArg.getD cfg.db)),
              ChStmt.insertDf (insertIntoSql df (dbArg.getD cfg.db) table)]⟩,
          Except.ok true, 0⟩) := by
  refine ⟨?_, ?_, ?_⟩
  · simp [generateCreateTableQuery, columnsStr_eq_intercalate]
  · intro hresp hnot hcreate hins
    simp [insertDataInClickhouse, insertAux, Ch.execute, Ch.executeStmt,
      Ch.insertDataframe, hresp, hnot, hcreate, hins]
  · intro hresp htbl hins
    simp [insertDataInClickhouse, insertAux, Ch.execute, Ch.executeStmt,
      Ch.insertDataframe, hresp, htbl, hins]

/-- Oracle for the table-missing half of the C7 witness: every statement
succeeds and no table exists yet. -/
def c7OracleMissing : Ch := ⟨fun _ _ => Except.ok [], []⟩

/-- Oracle for the table-present half of the C7 witness: table t exists and
everything succeeds. -/
def c7OracleExists : Ch :=
  ⟨fun _ s => match s with
    | ChStmt.exec q =>
      if q = showTablesSql "default" then Except.ok ["t"] else Except.ok []
    | ChStmt.insertDf _ => Except.ok [], []⟩

/-- Witness for C7: the create statement is executed exactly when the table
is missing. -/
theorem c7_witness :
    (insertDataInClickhouse defaultInsertCfg c7OracleMissing dateFrame "t"
        none true [] "date" "toYYYYMM" none 0).ch.trace =
      [ChStmt.exec (showTablesSql "default"),
        ChStmt.exec (generateCreateTableQuery defaultInsertCfg dateFrame
          "default" "t" "toYYYYMM(date)" "date"),
        ChStmt.insertDf (insertIntoSql dateFrame "default" "t")] ∧
    (insertDataInClickhouse defaultInsertCfg c7OracleMissing dateFrame "t"
        none true [] "date" "toYYYYMM" none 0).result = Except.ok true ∧
    (insertDataInClickhouse defaultInsertCfg c7OracleExists dateFrame "t"
        none false [] "date" "toYYYYMM" none 0).ch.trace =
      [ChStmt.exec (showTablesSql "default"),
        ChStmt.insertDf (insertIntoSql dateFrame "default" "t")] ∧
    (insertDataInClickhouse defaultInsertCfg c7OracleExists dateFrame "t"
        none false [] "date" "toYYYYMM" none 0).result = Except.ok true := by
  have h2 := (c7_create_table_spec defaultInsertCfg c7OracleMissing dateFrame
    "t" none true [] "date" "toYYYYMM" "p" "o" none 0 [] [] []).2.1
    rfl (by decide) rfl rfl
  have h3 := (c7_create_table_spec defaultInsertCfg c7OracleExists dateFrame
    "t" none true [] "date" "toYYYYMM" "p" "o" none 0 ["t"] [] []).2.2
    rfl (by decide) rfl
  exact ⟨congrArg (fun o => o.ch.trace) h2, congrArg InsertOutcome.result h2,
    congrArg (fun o => o.ch.trace) h3, congrArg InsertOutcome.result h3⟩

end ClickhousePandasWrapper
